import Mathlib

/-!
Verification of the JWT token-lifecycle layer of a fleet-management dashboard.

The client persists credentials in a key–value store under five keys
(access token, refresh token, access-expiry, refresh-expiry, serialized user
profile).  We embed that store as a `Storage` record whose fields are the
values held under those keys (`none` = key absent).  Expiry values, stored in
the source as timestamp strings compared through date parsing, are embedded
as integer timestamps; `now` is passed explicitly wherever the source reads
the wall clock.  The refresh network call is embedded by passing the server's
response (success payload or failure) as an explicit argument, together with
a counter of how many refresh calls the operation issued.
-/

/-- The slice of the client-side key–value store used by the auth service:
one field per storage key, `none` when the key is absent. -/
structure Storage where
  accessToken : Option String
  refreshToken : Option String
  accessExpiresAt : Option Int
  refreshExpiresAt : Option Int
  userData : Option String
deriving Repr, DecidableEq

/-- JavaScript truthiness of a nullable string: `null` and the empty string
are falsy, every other string is truthy. -/
def truthy : Option String → Bool
  | none => false
  | some s => !s.isEmpty

/-- Outcome of the `POST /auth/token/refresh` network call as seen by the
client: either a response carrying the new access token and its expiry, or a
thrown error (network or credential failure). -/
inductive RefreshResult where
  | success (access : String) (accessExpiresAt : Int) : RefreshResult
  | failure : RefreshResult
deriving Repr, DecidableEq

/-- Result of `getValidAccessToken`: the returned token (or `null`), the
storage state after the call, and how many refresh network calls were
issued. -/
structure TokenResult where
  token : Option String
  store : Storage
  refreshCalls : Nat
deriving Repr, DecidableEq

namespace AuthService

/-- Source `getStoredAccessToken`: reads the access-token key. -/
def getStoredAccessToken (s : Storage) : Option String :=
  s.accessToken

/-- Source `getStoredRefreshToken`: reads the refresh-token key. -/
def getStoredRefreshToken (s : Storage) : Option String :=
  s.refreshToken

/-- Source `storeTokens`: writes all four credential keys. -/
def storeTokens (s : Storage) (accessToken refreshToken : String)
    (accessExpiresAt refreshExpiresAt : Int) : Storage :=
  { s with
    accessToken := some accessToken
    refreshToken := some refreshToken
    accessExpiresAt := some accessExpiresAt
    refreshExpiresAt := some refreshExpiresAt }

/-- Source `removeTokens`: removes all four credential keys. -/
def removeTokens (s : Storage) : Storage :=
  { s with
    accessToken := none
    refreshToken := none
    accessExpiresAt := none
    refreshExpiresAt := none }

/-- Source `storeUser`: writes the serialized user profile. -/
def storeUser (s : Storage) (user : String) : Storage :=
  { s with userData := some user }

/-- Source `removeUser`: removes the cached user profile. -/
def removeUser (s : Storage) : Storage :=
  { s with userData := none }

/-- Source `storeToken` (legacy compatibility): writes only the access-token key. -/
def storeToken (s : Storage) (token : String) : Storage :=
  { s with accessToken := some token }

/-- Source `isTokenExpired(expiresAt)`: `new Date() >= new Date(expiresAt)`. -/
def isTokenExpired (now expiresAt : Int) : Bool :=
  decide (expiresAt ≤ now)

/-- Source `isAccessTokenExpired`: the access-expiry key is absent or its timestamp
has passed. -/
def isAccessTokenExpired (now : Int) (s : Storage) : Bool :=
  match s.accessExpiresAt with
  | none => true
  | some e => isTokenExpired now e

/-- Source `isRefreshTokenExpired`: the refresh-expiry key is absent or its
timestamp has passed. -/
def isRefreshTokenExpired (now : Int) (s : Storage) : Bool :=
  match s.refreshExpiresAt with
  | none => true
  | some e => isTokenExpired now e

/-- Source `getValidAccessToken`: returns the stored access token if fresh;
otherwise, if the refresh token is expired, purges credentials and profile
and returns `null`; otherwise issues one refresh call, storing the new
access token and expiry alongside the unchanged refresh token and expiry on
success, and purging on failure. -/
def getValidAccessToken (now : Int) (refreshResponse : RefreshResult)
    (s : Storage) : TokenResult :=
  if !truthy s.accessToken || !truthy s.refreshToken then
    ⟨none, s, 0⟩
  else if !isAccessTokenExpired now s then
    ⟨s.accessToken, s, 0⟩
  else if isRefreshTokenExpired now s then
    ⟨none, removeUser (removeTokens s), 0⟩
  else
    match refreshResponse with
    | RefreshResult.success access accessExpiresAt =>
        ⟨some access,
         storeTokens s access (s.refreshToken.getD "") accessExpiresAt
           (s.refreshExpiresAt.getD 0), 1⟩
    | RefreshResult.failure =>
        ⟨none, removeUser (removeTokens s), 1⟩

/-- Source `isAuthenticated`: `!!(accessToken && refreshToken &&
!isRefreshTokenExpired())`. -/
def isAuthenticated (now : Int) (s : Storage) : Bool :=
  truthy s.accessToken && truthy s.refreshToken && !isRefreshTokenExpired now s

end AuthService

/-- An HTTP response as the two response handlers inspect it: the `ok` flag,
the status code, and the error message extracted from the body. -/
structure HttpResponse where
  ok : Bool
  status : Nat
  body : String
deriving Repr, DecidableEq

/-- Result of a response handler: the parsed body or a thrown error, the
storage state afterwards, and whether the browser was redirected to the
unauthenticated entry point. -/
structure HandleResult where
  result : Except String String
  store : Storage
  redirectedToRoot : Bool
deriving Repr

/-- Error message of a failed response: the extracted body message, falling
back to the HTTP status. -/
def errorMessage (resp : HttpResponse) : String :=
  if resp.body.isEmpty then "HTTP error! status: " ++ toString resp.status
  else resp.body

namespace ApiClient

/-- Source `ApiClient.handleResponse`: on a non-ok response with status 401, clears
all credential keys and the cached profile, redirects to `/`, and throws;
other failures throw without touching storage. -/
def handleResponse (resp : HttpResponse) (s : Storage) : HandleResult :=
  if resp.ok then
    ⟨Except.ok resp.body, s, false⟩
  else if resp.status = 401 then
    ⟨Except.error "Authentication required. Please login again.",
     AuthService.removeUser (AuthService.removeTokens s), true⟩
  else
    ⟨Except.error (errorMessage resp), s, false⟩

end ApiClient

namespace AuthServiceHandler

/-- Source `AuthService.handleResponse`: throws the extracted error message on any
non-ok response; storage is never touched and no redirect happens. -/
def handleResponse (resp : HttpResponse) (s : Storage) : HandleResult :=
  if resp.ok then
    ⟨Except.ok resp.body, s, false⟩
  else
    ⟨Except.error (errorMessage resp), s, false⟩

end AuthServiceHandler

/-- Outcome of one background revalidation check: the refresh attempt
resolved `true`, resolved `false`, or threw. -/
inductive RefreshOutcome where
  | success : RefreshOutcome
  | failure : RefreshOutcome
  | thrown : RefreshOutcome
deriving Repr, DecidableEq

/-- Observable side effects of the auth hook: logging the user out and
navigating to a route. -/
inductive AuthAction where
  | logoutAction : AuthAction
  | navigateTo (path : String) : AuthAction
deriving Repr, DecidableEq

/-- Source `checkAndRefreshToken` of `useAuthInterceptor`: on a failed or thrown
refresh, log out and navigate to `/`; on success do nothing. -/
def checkAndRefreshToken : RefreshOutcome → List AuthAction
  | RefreshOutcome.success => []
  | RefreshOutcome.failure => [AuthAction.logoutAction, AuthAction.navigateTo "/"]
  | RefreshOutcome.thrown => [AuthAction.logoutAction, AuthAction.navigateTo "/"]

/-- A scheduled interval timer, described by its period in milliseconds. -/
structure IntervalTimer where
  periodMs : Nat
deriving Repr, DecidableEq

/-- The effect body of `useAuthInterceptor`: when no token is held or the
user is not authenticated it schedules nothing; otherwise it schedules
`checkAndRefreshToken` on a `5 * 60 * 1000` ms interval. -/
def authInterceptorEffect (token : Option String) (isAuth : Bool) :
    Option IntervalTimer :=
  if !truthy token || !isAuth then none
  else some ⟨5 * 60 * 1000⟩

/-- The effect's cleanup (`clearInterval`): the timer is gone afterwards. -/
def clearIntervalTimer (_t : Option IntervalTimer) : Option IntervalTimer :=
  none

/-- One timer tick: with no scheduled timer nothing runs; with a scheduled
timer the check runs on the tick's refresh outcome. -/
def runTick : Option IntervalTimer → RefreshOutcome → List AuthAction
  | none, _ => []
  | some _, o => checkAndRefreshToken o

/-! ### Helper lemmas -/

/-- A truthy nullable string is some string. -/
theorem truthy_some (o : Option String) (h : truthy o = true) : ∃ x, o = some x := by
  cases o with
  | none => simp [truthy] at h
  | some x => exact ⟨x, rfl⟩

/-- The access token counts as unexpired exactly when an access-expiry is
stored and lies strictly in the future. -/
theorem isAccessTokenExpired_false_iff (now : Int) (s : Storage) :
    AuthService.isAccessTokenExpired now s = false ↔
      ∃ e, s.accessExpiresAt = some e ∧ now < e := by
  cases h : s.accessExpiresAt with
  | none => simp [AuthService.isAccessTokenExpired, h]
  | some e =>
    simp [AuthService.isAccessTokenExpired, AuthService.isTokenExpired, h]

/-- The refresh token counts as unexpired exactly when a refresh-expiry is
stored and lies strictly in the future. -/
theorem isRefreshTokenExpired_false_iff (now : Int) (s : Storage) :
    AuthService.isRefreshTokenExpired now s = false ↔
      ∃ e, s.refreshExpiresAt = some e ∧ now < e := by
  cases h : s.refreshExpiresAt with
  | none => simp [AuthService.isRefreshTokenExpired, h]
  | some e =>
    simp [AuthService.isRefreshTokenExpired, AuthService.isTokenExpired, h]

/-! ### Claim theorems -/

/-- C1: when the stored access token is present but expired and the stored
refresh token is present and unexpired, `getValidAccessToken` issues exactly
one refresh call and, on success, returns the new access token; the stored
access token and access-expiry are replaced by the refresh response's values
while the refresh token, refresh-expiry and cached profile are unchanged. -/
theorem getValidAccessToken_stale_refresh_success
    (now : Int) (s : Storage) (a : String) (e : Int)
    (hA : truthy s.accessToken = true)
    (hR : truthy s.refreshToken = true)
    (hAE : AuthService.isAccessTokenExpired now s = true)
    (hRE : AuthService.isRefreshTokenExpired now s = false) :
    AuthService.getValidAccessToken now (RefreshResult.success a e) s =
      ⟨some a, { s with accessToken := some a, accessExpiresAt := some e }, 1⟩ := by
  obtain ⟨rt, hrt⟩ := truthy_some _ hR
  obtain ⟨re, hre, -⟩ := (isRefreshTokenExpired_false_iff now s).mp hRE
  rw [hrt] at hR
  simp [AuthService.getValidAccessToken, AuthService.storeTokens, hA, hR, hAE,
    hRE, hrt, hre]

/-- Witness for C1 at a concrete stale state and refresh response. -/
theorem getValidAccessToken_stale_refresh_success_witness :
    AuthService.getValidAccessToken 50 (RefreshResult.success "b" 200)
        ⟨some "a", some "r", some 10, some 100, some "u"⟩ =
      ⟨some "b",
       { (⟨some "a", some "r", some 10, some 100, some "u"⟩ : Storage) with
          accessToken := some "b", accessExpiresAt := some 200 }, 1⟩ :=
  getValidAccessToken_stale_refresh_success 50
    ⟨some "a", some "r", some 10, some 100, some "u"⟩ "b" 200
    (by decide) (by decide) (by decide) (by decide)

/-- C7: when both tokens are present and the stored access-expiry is strictly
in the future, `getValidAccessToken` returns the stored access token, issues
no refresh call, and leaves every stored field unchanged. -/
theorem getValidAccessToken_fresh_noop
    (now : Int) (rr : RefreshResult) (s : Storage) (e : Int)
    (hA : truthy s.accessToken = true)
    (hR : truthy s.refreshToken = true)
    (hE : s.accessExpiresAt = some e)
    (hF : now < e) :
    AuthService.getValidAccessToken now rr s = ⟨s.accessToken, s, 0⟩ := by
  have hAE : AuthService.isAccessTokenExpired now s = false :=
    (isAccessTokenExpired_false_iff now s).mpr ⟨e, hE, hF⟩
  simp [AuthService.getValidAccessToken, hA, hR, hAE]

/-- Witness for C7 at a concrete fresh state. -/
theorem getValidAccessToken_fresh_noop_witness :
    AuthService.getValidAccessToken 50 RefreshResult.failure
        ⟨some "a", some "r", some 100, some 200, some "u"⟩ =
      ⟨(⟨some "a", some "r", some 100, some 200, some "u"⟩ : Storage).accessToken,
       ⟨some "a", some "r", some 100, some 200, some "u"⟩, 0⟩ :=
  getValidAccessToken_fresh_noop 50 RefreshResult.failure
    ⟨some "a", some "r", some 100, some 200, some "u"⟩ 100
    (by decide) (by decide) rfl (by decide)

/-- C9: when the stored access token or the stored refresh token is absent
(or empty), `getValidAccessToken` returns `null` immediately, issues no
refresh call, and leaves the store untouched — no purge happens on this
path. -/
theorem getValidAccessToken_missing_token_null
    (now : Int) (rr : RefreshResult) (s : Storage)
    (h : truthy s.accessToken = false ∨ truthy s.refreshToken = false) :
    AuthService.getValidAccessToken now rr s = ⟨none, s, 0⟩ := by
  rcases h with h | h <;> simp [AuthService.getValidAccessToken, h]

/-- Witness for C9 at a state holding only an unexpired refresh token. -/
theorem getValidAccessToken_missing_token_null_witness :
    AuthService.getValidAccessToken 50 RefreshResult.failure
        ⟨none, some "r", none, some 100, some "u"⟩ =
      ⟨none, ⟨none, some "r", none, some 100, some "u"⟩, 0⟩ :=
  getValidAccessToken_missing_token_null 50 RefreshResult.failure
    ⟨none, some "r", none, some 100, some "u"⟩ (Or.inl (by decide))

/-- C2 counterexample: a state holding an unexpired refresh token but no
access token is not authenticated according to the code, refuting the claim
that `isAuthenticated` is independent of the access token's presence. -/
theorem isAuthenticated_requires_access_token_cex :
    AuthService.isAuthenticated 50 ⟨none, some "r", none, some 100, none⟩ = false ∧
    (⟨none, some "r", none, some 100, none⟩ : Storage).refreshToken = some "r" ∧
    AuthService.isRefreshTokenExpired 50
      ⟨none, some "r", none, some 100, none⟩ = false := by
  decide

/-- C2 amended: `isAuthenticated` is true iff a non-empty access token AND a
non-empty refresh token are stored AND a refresh-expiry is stored with a
timestamp strictly in the future. -/
theorem isAuthenticated_iff (now : Int) (s : Storage) :
    AuthService.isAuthenticated now s = true ↔
      truthy s.accessToken = true ∧ truthy s.refreshToken = true ∧
        ∃ e, s.refreshExpiresAt = some e ∧ now < e := by
  rw [AuthService.isAuthenticated]
  simp only [Bool.and_eq_true, Bool.not_eq_true']
  rw [isRefreshTokenExpired_false_iff]
  exact and_assoc

/-- C4 counterexample: with a fresh access token but an expired refresh
token, `getValidAccessToken` returns the access token and purges nothing,
refuting the claim for states whose access token is unexpired. -/
theorem getValidAccessToken_expired_refresh_cex :
    AuthService.getValidAccessToken 50 RefreshResult.failure
        ⟨some "a", some "r", some 100, some 10, some "u"⟩ =
      ⟨some "a", ⟨some "a", some "r", some 100, some 10, some "u"⟩, 0⟩ ∧
    AuthService.isRefreshTokenExpired 50
      ⟨some "a", some "r", some 100, some 10, some "u"⟩ = true := by
  decide

/-- C4 amended: when both tokens are present, the access token is expired and
the refresh token is expired, `getValidAccessToken` returns `null` without
issuing any network call and purges all four credential fields together with
the cached user profile. -/
theorem getValidAccessToken_expired_refresh_purges
    (now : Int) (rr : RefreshResult) (s : Storage)
    (hA : truthy s.accessToken = true)
    (hR : truthy s.refreshToken = true)
    (hAE : AuthService.isAccessTokenExpired now s = true)
    (hRE : AuthService.isRefreshTokenExpired now s = true) :
    AuthService.getValidAccessToken now rr s =
      ⟨none, ⟨none, none, none, none, none⟩, 0⟩ := by
  simp [AuthService.getValidAccessToken, AuthService.removeTokens,
    AuthService.removeUser, hA, hR, hAE, hRE]

/-- Witness for amended C4 at a concrete fully-expired state. -/
theorem getValidAccessToken_expired_refresh_purges_witness :
    AuthService.getValidAccessToken 50 RefreshResult.failure
        ⟨some "a", some "r", some 10, some 20, some "u"⟩ =
      ⟨none, ⟨none, none, none, none, none⟩, 0⟩ :=
  getValidAccessToken_expired_refresh_purges 50 RefreshResult.failure
    ⟨some "a", some "r", some 10, some 20, some "u"⟩
    (by decide) (by decide) (by decide) (by decide)

/-- C3 counterexample: an authenticated request routed through the auth
service's own response handler that receives a 401 leaves every credential
field and the cached profile in place, refuting the claim that every request
path purges on authentication rejection. -/
theorem authHandler_401_no_purge_cex :
    (AuthServiceHandler.handleResponse ⟨false, 401, "x"⟩
        ⟨some "a", some "r", some 1, some 2, some "u"⟩).store =
      ⟨some "a", some "r", some 1, some 2, some "u"⟩ ∧
    (AuthServiceHandler.handleResponse ⟨false, 401, "x"⟩
        ⟨some "a", some "r", some 1, some 2, some "u"⟩).store.accessToken =
      some "a" := by
  constructor <;> rfl

/-- C3 amended: a 401 on a request routed through the `ApiClient` handler
purges all credential fields and the cached profile and redirects to `/`
before the error propagates, while a 401 on a request routed through the
auth service's own handler propagates the error with storage untouched and
no redirect. -/
theorem handleResponse_401_split (resp : HttpResponse) (s : Storage)
    (hok : resp.ok = false) (h401 : resp.status = 401) :
    (ApiClient.handleResponse resp s).store =
        ⟨none, none, none, none, none⟩ ∧
    (ApiClient.handleResponse resp s).redirectedToRoot = true ∧
    (ApiClient.handleResponse resp s).result =
        Except.error "Authentication required. Please login again." ∧
    (AuthServiceHandler.handleResponse resp s).store = s ∧
    (AuthServiceHandler.handleResponse resp s).redirectedToRoot = false ∧
    (AuthServiceHandler.handleResponse resp s).result =
        Except.error (errorMessage resp) := by
  simp [ApiClient.handleResponse, AuthServiceHandler.handleResponse,
    AuthService.removeTokens, AuthService.removeUser, hok, h401]

/-- Witness for amended C3 at a concrete 401 response and populated store. -/
theorem handleResponse_401_split_witness :
    (ApiClient.handleResponse ⟨false, 401, "x"⟩
        ⟨some "a", some "r", some 1, some 2, some "u"⟩).store =
      ⟨none, none, none, none, none⟩ ∧
    (ApiClient.handleResponse ⟨false, 401, "x"⟩
        ⟨some "a", some "r", some 1, some 2, some "u"⟩).redirectedToRoot = true ∧
    (ApiClient.handleResponse ⟨false, 401, "x"⟩
        ⟨some "a", some "r", some 1, some 2, some "u"⟩).result =
      Except.error "Authentication required. Please login again." ∧
    (AuthServiceHandler.handleResponse ⟨false, 401, "x"⟩
        ⟨some "a", some "r", some 1, some 2, some "u"⟩).store =
      ⟨some "a", some "r", some 1, some 2, some "u"⟩ ∧
    (AuthServiceHandler.handleResponse ⟨false, 401, "x"⟩
        ⟨some "a", some "r", some 1, some 2, some "u"⟩).redirectedToRoot = false ∧
    (AuthServiceHandler.handleResponse ⟨false, 401, "x"⟩
        ⟨some "a", some "r", some 1, some 2, some "u"⟩).result =
      Except.error (errorMessage ⟨false, 401, "x"⟩) :=
  handleResponse_401_split ⟨false, 401, "x"⟩
    ⟨some "a", some "r", some 1, some 2, some "u"⟩ rfl rfl

/-- Token–expiry consistency as the claim states it: a token key is present
exactly when its corresponding expiry key is present. -/
def tokenExpiryConsistent (s : Storage) : Bool :=
  (s.accessToken.isSome == s.accessExpiresAt.isSome) &&
  (s.refreshToken.isSome == s.refreshExpiresAt.isSome)

/-- C5 counterexample: the legacy `storeToken` writes only the access-token
key, so on an empty store it leaves an access token present without its
expiry, refuting atomicity for every store operation the manager exposes. -/
theorem storeToken_inconsistent_cex :
    (AuthService.storeToken ⟨none, none, none, none, none⟩ "t").accessToken =
      some "t" ∧
    (AuthService.storeToken ⟨none, none, none, none, none⟩ "t").accessExpiresAt =
      none ∧
    tokenExpiryConsistent
      (AuthService.storeToken ⟨none, none, none, none, none⟩ "t") = false := by
  decide

/-- C5 amended: `storeTokens` and `removeTokens` each write or clear all four
credential fields together, so both always produce a token–expiry-consistent
store; only the legacy `storeToken` can break consistency. -/
theorem storeTokens_removeTokens_consistent (s : Storage)
    (a r : String) (ae re : Int) :
    tokenExpiryConsistent (AuthService.storeTokens s a r ae re) = true ∧
    tokenExpiryConsistent (AuthService.removeTokens s) = true := by
  simp [tokenExpiryConsistent, AuthService.storeTokens, AuthService.removeTokens]

/-- C6 counterexample: when the server's refresh response carries an already
past expiry, `getValidAccessToken` returns the refreshed token although its
stored expiry is not in the future, refuting the claim for arbitrary server
responses. -/
theorem getValidAccessToken_past_expiry_cex :
    (AuthService.getValidAccessToken 50 (RefreshResult.success "b" 10)
        ⟨some "a", some "r", some 0, some 300, none⟩).token = some "b" ∧
    (AuthService.getValidAccessToken 50 (RefreshResult.success "b" 10)
        ⟨some "a", some "r", some 0, some 300, none⟩).store.accessExpiresAt =
      some 10 ∧
    AuthService.isTokenExpired 50 10 = true := by
  decide

/-- C6 amended: provided any successful refresh response carries an expiry
strictly in the future, whenever `getValidAccessToken` returns a non-null
token the access-expiry stored at the moment of return is strictly in the
future. -/
theorem getValidAccessToken_future_expiry
    (now : Int) (rr : RefreshResult) (s : Storage) (tok : String)
    (hServer : ∀ a e, rr = RefreshResult.success a e → now < e)
    (hTok : (AuthService.getValidAccessToken now rr s).token = some tok) :
    ∃ e, (AuthService.getValidAccessToken now rr s).store.accessExpiresAt =
      some e ∧ now < e := by
  cases h1 : (!truthy s.accessToken || !truthy s.refreshToken) with
  | true => simp [AuthService.getValidAccessToken, h1] at hTok
  | false =>
    cases h2 : AuthService.isAccessTokenExpired now s with
    | false =>
      obtain ⟨e, he, hlt⟩ := (isAccessTokenExpired_false_iff now s).mp h2
      refine ⟨e, ?_, hlt⟩
      simp [AuthService.getValidAccessToken, h1, h2, he]
    | true =>
      cases h3 : AuthService.isRefreshTokenExpired now s with
      | true => simp [AuthService.getValidAccessToken, h1, h2, h3] at hTok
      | false =>
        cases rr with
        | success a e =>
          refine ⟨e, ?_, hServer a e rfl⟩
          simp [AuthService.getValidAccessToken, AuthService.storeTokens,
            h1, h2, h3]
        | failure =>
          simp [AuthService.getValidAccessToken, h1, h2, h3] at hTok

/-- Witness for amended C6 at a concrete stale state with a well-behaved
refresh response. -/
theorem getValidAccessToken_future_expiry_witness :
    ∃ e, (AuthService.getValidAccessToken 50 (RefreshResult.success "b" 200)
        ⟨some "a", some "r", some 0, some 300, none⟩).store.accessExpiresAt =
      some e ∧ (50 : Int) < e :=
  getValidAccessToken_future_expiry 50 (RefreshResult.success "b" 200)
    ⟨some "a", some "r", some 0, some 300, none⟩ "b"
    (by intro a e h; injection h with h1 h2; omega) (by decide)

/-- C8: with a token held and the user authenticated, the interceptor effect
schedules its check on a fixed `5 * 60 * 1000` ms interval; every tick whose
refresh attempt fails or throws logs the user out and navigates to `/`; and
after the cleanup clears the timer, no tick runs any check. -/
theorem authInterceptor_timer_spec (token : Option String) (isAuth : Bool)
    (hT : truthy token = true) (hA : isAuth = true) :
    ∃ t, authInterceptorEffect token isAuth = some t ∧
      t.periodMs = 5 * 60 * 1000 ∧
      (∀ o, o ≠ RefreshOutcome.success →
        runTick (some t) o =
          [AuthAction.logoutAction, AuthAction.navigateTo "/"]) ∧
      (∀ o, runTick (clearIntervalTimer (some t)) o = []) := by
  refine ⟨⟨5 * 60 * 1000⟩, ?_, rfl, ?_, ?_⟩
  · simp [authInterceptorEffect, hT, hA]
  · intro o ho
    cases o with
    | success => exact absurd rfl ho
    | failure => rfl
    | thrown => rfl
  · intro o
    rfl

/-- Witness for C8 at a concrete held token. -/
theorem authInterceptor_timer_spec_witness :
    ∃ t, authInterceptorEffect (some "t") true = some t ∧
      t.periodMs = 5 * 60 * 1000 ∧
      (∀ o, o ≠ RefreshOutcome.success →
        runTick (some t) o =
          [AuthAction.logoutAction, AuthAction.navigateTo "/"]) ∧
      (∀ o, runTick (clearIntervalTimer (some t)) o = []) :=
  authInterceptor_timer_spec (some "t") true (by decide) rfl

/-- C10: after `storeTokens a r ae re` the getters return exactly the stored
tokens and the expiry checks evaluate exactly the stored timestamps, and
after `removeTokens` both getters return `null`. -/
theorem storage_roundtrip (s : Storage) (now : Int) (a r : String)
    (ae re : Int) :
    AuthService.getStoredAccessToken (AuthService.storeTokens s a r ae re) =
      some a ∧
    AuthService.getStoredRefreshToken (AuthService.storeTokens s a r ae re) =
      some r ∧
    AuthService.isAccessTokenExpired now (AuthService.storeTokens s a r ae re) =
      AuthService.isTokenExpired now ae ∧
    AuthService.isRefreshTokenExpired now (AuthService.storeTokens s a r ae re) =
      AuthService.isTokenExpired now re ∧
    AuthService.getStoredAccessToken (AuthService.removeTokens s) = none ∧
    AuthService.getStoredRefreshToken (AuthService.removeTokens s) = none := by
  simp [AuthService.getStoredAccessToken, AuthService.getStoredRefreshToken,
    AuthService.storeTokens, AuthService.removeTokens,
    AuthService.isAccessTokenExpired, AuthService.isRefreshTokenExpired]
